import Mathlib

/-!
Verification of the OAuth guild-membership reconciliation engine.

Shallow embedding of the repository sources:
  src/discord_oauth/oauth.py   (Oauth class: request classification, token
                                exchange, refresh, join, validate_user)
  src/bot.py                   (join_all / refresh_all reconciliation commands)
  src/web.py                   (callback endpoint)

The network environment is an explicit input: every HTTP call made by the code
is modelled by the response the provider would return to it.  JSON bodies are
association lists of string fields.  The Mongo collection of user documents is
an association list of records keyed by user_id.
-/

deriving instance DecidableEq for Except

namespace DOauth

/-- A decoded JSON object: the string fields the code reads. -/
abbrev Body := List (String × String)

/-- An HTTP response from the provider: status code and decoded JSON body. -/
structure HttpResp where
  status : Nat
  body : Body
deriving DecidableEq

/-- The HTTP methods supported by Oauth.__request (Literal["GET","POST","PUT"]). -/
inductive Method
  | GET
  | POST
  | PUT
deriving DecidableEq

/-- The exceptions raised by the code (src/discord_oauth/exceptions.py), plus
the two kinds of plain Python errors the code can raise: a bare Exception
(`fatal`) and a KeyError from a missing JSON field (`keyError`). -/
inductive OErr
  | unauthorized
  | rateLimited
  | invalidGrant
  | accessTokenExpired
  | unknownUser
  | invalidScope
  | keyError
  | fatal
deriving DecidableEq

/-- A stored user document (collection "users"): fields written by update_db. -/
structure UserRecord where
  user_id : String
  username : String
  access_token : String
  refresh_token : String
deriving DecidableEq

/-- The "users" collection. -/
abbrev Store := List UserRecord

/-- response[k] as an Option: some v when field k is present. -/
def jget (b : Body) (k : String) : Option String :=
  match b with
  | [] => none
  | (k', v) :: rest => if k' = k then some v else jget rest k

/-- Python s.split(sep) for a one-character separator: splits at every
occurrence, keeping empty segments. -/
def pySplitAux (sep : Char) (acc : List Char) : List Char → List String
  | [] => [String.mk acc.reverse]
  | c :: cs =>
    if c = sep then String.mk acc.reverse :: pySplitAux sep [] cs
    else pySplitAux sep (c :: acc) cs

/-- response["scope"].split(" ") (oauth.py line 152). -/
def pySplit (sep : Char) (s : String) : List String :=
  pySplitAux sep [] s.data

/-- collection.find_one({"_id": uid}): first document whose _id matches. -/
def find_one : Store → String → Option UserRecord
  | [], _ => none
  | r :: rest, uid => if r.user_id = uid then some r else find_one rest uid

/-- collection.delete_one({"_id": uid}): removes the first matching document. -/
def delete_one : Store → String → Store
  | [], _ => []
  | r :: rest, uid => if r.user_id = uid then rest else r :: delete_one rest uid

/-- Oauth.update_db (oauth.py lines 112-132): update_one({"_id": user[0]},
{"$set": {username, access_token, refresh_token}}, upsert=True).  Sets the
three fields on the first matching document, or inserts a fresh document. -/
def update_db : Store → String × String → String → String → Store
  | [], user, atk, rtk => [⟨user.1, user.2, atk, rtk⟩]
  | r :: rest, user, atk, rtk =>
    if r.user_id = user.1 then ⟨r.user_id, user.2, atk, rtk⟩ :: rest
    else r :: update_db rest user atk rtk

/-- Oauth.__request (oauth.py lines 42-98).  The transport reply is the input
`resp`; for a PUT the code never decodes the body (line 82: response = {}).
Classification (lines 88-98): 401 raises Unauthorized, 429 raises RateLimited,
400 reads response["error"] (KeyError when absent, e.g. on any PUT) and raises
InvalidGrant on "invalid_grant" or a bare Exception otherwise; every other
status returns (response, status). -/
def requestClassify (m : Method) (resp : HttpResp) : Except OErr (Body × Nat) :=
  let response : Body :=
    match m with
    | .PUT => []
    | _ => resp.body
  if resp.status = 401 then .error .unauthorized
  else if resp.status = 429 then .error .rateLimited
  else if resp.status = 400 then
    match jget response "error" with
    | some e => if e = "invalid_grant" then .error .invalidGrant else .error .fatal
    | none => .error .keyError
  else .ok (response, resp.status)

/-- Oauth.get_user (oauth.py lines 100-110): GET /users/@me, returns
(response["id"], response["username"]). -/
def get_user (profileResp : HttpResp) : Except OErr (String × String) :=
  match requestClassify .GET profileResp with
  | .error e => .error e
  | .ok (body, _) =>
    match jget body "id", jget body "username" with
    | some i, some u => .ok (i, u)
    | _, _ => .error .keyError

/-- The provider replies consumed by Oauth.set_access_token: the token-exchange
POST and the /users/@me GET. -/
structure ExchangeEnv where
  tokenResp : HttpResp
  profileResp : HttpResp
deriving DecidableEq

/-- Oauth.set_access_token (oauth.py lines 134-161).  Exchanges the code,
checks {"identify","guilds.join"}.issubset(response["scope"].split(" "))
(raising InvalidScope otherwise), resolves the profile, and, only when both
userid and username are truthy (non-empty), upserts the record.  Returns the
(possibly updated) store and (userid, username, access_token). -/
def set_access_token (env : ExchangeEnv) (st : Store) :
    Store × Except OErr (String × String × String) :=
  match requestClassify .POST env.tokenResp with
  | .error e => (st, .error e)
  | .ok (body, _) =>
    match jget body "scope" with
    | none => (st, .error .keyError)
    | some scope =>
      if "identify" ∈ pySplit ' ' scope ∧ "guilds.join" ∈ pySplit ' ' scope then
        match jget body "access_token" with
        | none => (st, .error .keyError)
        | some atk =>
          match get_user env.profileResp with
          | .error e => (st, .error e)
          | .ok (userid, username) =>
            if userid ≠ "" ∧ username ≠ "" then
              match jget body "refresh_token" with
              | none => (st, .error .keyError)
              | some rtk =>
                (update_db st (userid, username) atk rtk,
                 .ok (userid, username, atk))
            else (st, .ok (userid, username, atk))
      else (st, .error .invalidScope)

/-- Oauth.set_refresh_token (oauth.py lines 163-193).  Reads the stored record
(UnkownUser when absent), POSTs the refresh exchange; only InvalidGrant is
caught there: the record is deleted and None returned.  On success the old
identity (db_data._id, db_data.username) is written back with the new token
pair and the triple (user_id, username, new access_token) is returned. -/
def set_refresh_token (refreshResp : HttpResp) (st : Store) (user_id : String) :
    Store × Except OErr (Option (String × String × String)) :=
  match find_one st user_id with
  | none => (st, .error .unknownUser)
  | some db_data =>
    match requestClassify .POST refreshResp with
    | .error .invalidGrant => (delete_one st user_id, .ok none)
    | .error e => (st, .error e)
    | .ok (body, _) =>
      match jget body "access_token" with
      | none => (st, .error .keyError)
      | some atk =>
        match jget body "refresh_token" with
        | none => (st, .error .keyError)
        | some rtk =>
          (update_db st (db_data.user_id, db_data.username) atk rtk,
           .ok (some (db_data.user_id, db_data.username, atk)))

/-- The two success values of Oauth.join: "Success" (201) and
"Already in guild" (204). -/
inductive JoinOk
  | success
  | alreadyInGuild
deriving DecidableEq

/-- Oauth.join (oauth.py lines 207-232).  Reads the stored record (UnkownUser
when absent), PUTs the membership request, then maps the status:
201 success, 204 already-in-guild, 403 AccessTokenExpired, 404 UnkownUser,
anything else a bare Exception.  Statuses 401/429/400 are intercepted inside
__request before this mapping runs. -/
def join (joinResp : HttpResp) (st : Store) (user_id : String) :
    Except OErr JoinOk :=
  match find_one st user_id with
  | none => .error .unknownUser
  | some _ =>
    match requestClassify .PUT joinResp with
    | .error e => .error e
    | .ok (_, status) =>
      if status = 201 then .ok .success
      else if status = 204 then .ok .alreadyInGuild
      else if status = 403 then .error .accessTokenExpired
      else if status = 404 then .error .unknownUser
      else .error .fatal

/-- The access token carried in the membership PUT payload (oauth.py line 221:
json={"access_token": db_data["access_token"]}). -/
def joinSentToken (st : Store) (user_id : String) : Option String :=
  (find_one st user_id).map (fun r => r.access_token)

/-- The provider replies consumed by Oauth.validate_user: those of
set_access_token plus the member-lookup GET and the role-grant PUT. -/
structure ValidateEnv where
  exch : ExchangeEnv
  memberResp : HttpResp
  rolePutResp : HttpResp
deriving DecidableEq

/-- Oauth.validate_user (oauth.py lines 234-255).  Runs set_access_token, GETs
the guild member; on 200 issues the role-grant PUT and returns True, on 404
raises UnkownUser, otherwise returns False.  The last component counts the
role-grant PUTs issued. -/
def validate_user (env : ValidateEnv) (st : Store) :
    Store × Except OErr Bool × Nat :=
  match set_access_token env.exch st with
  | (st1, .error e) => (st1, .error e, 0)
  | (st1, .ok _triple) =>
    match requestClassify .GET env.memberResp with
    | .error e => (st1, .error e, 0)
    | .ok (_, status) =>
      if status = 200 then
        match requestClassify .PUT env.rolePutResp with
        | .error e => (st1, .error e, 1)
        | .ok _ => (st1, .ok true, 1)
      else if status = 404 then (st1, .error .unknownUser, 0)
      else (st1, .ok false, 0)

/-- The fixed post-auth destination of web.py's redirects. -/
def postAuthUrl : String := "https://discord.com/app"

/-- The /callback route (web.py lines 48-58).  When a code is given it runs
validate_user inside try/except UnkownUser; only that exception is swallowed.
An .ok value is the redirect to the fixed destination; an .error is an
exception escaping the handler (no redirect). -/
def callback (env : ValidateEnv) (st : Store) (code : Option String) :
    Store × Except OErr String :=
  match code with
  | none => (st, .ok postAuthUrl)
  | some _ =>
    match validate_user env st with
    | (st1, .error .unknownUser, _) => (st1, .ok postAuthUrl)
    | (st1, .error e, _) => (st1, .error e)
    | (st1, .ok _, _) => (st1, .ok postAuthUrl)

/-- The provider replies one reconciliation candidate can consume in bot.py's
join_all loop: the first membership PUT, the refresh POST and the retried
membership PUT. -/
structure CandidateEnv where
  firstJoin : HttpResp
  refresh : HttpResp
  retryJoin : HttpResp
deriving DecidableEq

/-- Outcome of one iteration of bot.py's join_all loop body. -/
structure StepOut where
  store : Store
  err : Option OErr
  completedHere : Bool
  args : List String
deriving DecidableEq

/-- One iteration of the join_all loop (bot.py lines 97-107).  The first join
is attempted; only UnkownUser, InvalidGrant and AccessTokenExpired are caught.
The handler refreshes and, when the refresh returns a triple, retries
oauth.join(refresh_resp[-1]) - the LAST tuple component, i.e. the refreshed
ACCESS TOKEN, not the user id - catching only AccessTokenExpired, whose
handler delete_one({"_id": refresh_resp[-1]}) also keys on that token.
err records an escaping exception; args lists the arguments passed to join. -/
def join_all_step (env : CandidateEnv) (st : Store) (member : String) : StepOut :=
  match join env.firstJoin st member with
  | .ok _ => ⟨st, none, true, [member]⟩
  | .error e =>
    if e = .unknownUser ∨ e = .invalidGrant ∨ e = .accessTokenExpired then
      match set_refresh_token env.refresh st member with
      | (st1, .error e2) => ⟨st1, some e2, false, [member]⟩
      | (st1, .ok none) => ⟨st1, none, false, [member]⟩
      | (st1, .ok (some triple)) =>
        match join env.retryJoin st1 triple.2.2 with
        | .ok _ => ⟨st1, none, true, [member, triple.2.2]⟩
        | .error .accessTokenExpired =>
          ⟨delete_one st1 triple.2.2, none, false, [member, triple.2.2]⟩
        | .error e3 => ⟨st1, some e3, false, [member, triple.2.2]⟩
    else ⟨st, some e, false, [member]⟩

/-- The state of a whole join_all run: final store, the completed set (in
completion order), the candidates whose first join was attempted, every
argument passed to oauth.join, and the exception that aborted the loop, if
any. -/
structure RunOut where
  store : Store
  completed : List String
  attempted : List String
  joinArgs : List String
  aborted : Option OErr
deriving DecidableEq

/-- The for-loop of bot.py's join_all (lines 95-114): processes the candidates
in order, stopping when an exception escapes an iteration. -/
def join_all_loop (env : String → CandidateEnv) : Store → List String → RunOut
  | st, [] => ⟨st, [], [], [], none⟩
  | st, m :: rest =>
    let s := join_all_step (env m) st m
    match s.err with
    | some e => ⟨s.store, [], [m], s.args, some e⟩
    | none =>
      let r := join_all_loop env s.store rest
      ⟨r.store, (if s.completedHere then [m] else []) ++ r.completed,
       m :: r.attempted, s.args ++ r.joinArgs, r.aborted⟩

/-- db_members - guild_members (bot.py lines 74-78 and 95): the stored user
ids that are not in the live guild roster, in store order. -/
def toJoinOf (st : Store) (guild : List String) : List String :=
  (st.map (fun r => r.user_id)).filter (fun m => decide (m ∉ guild))

/-- bot.py's join_all command (lines 70-114): computes the candidate set and
runs the loop. -/
def join_all (env : String → CandidateEnv) (guild : List String) (st : Store) :
    RunOut :=
  join_all_loop env st (toJoinOf st guild)

/-- State of bot.py's refresh_all batch: final store, the ids refresh was
invoked for, and the exception that escaped the loop, if any. -/
structure RefreshOut where
  store : Store
  refreshed : List String
  err : Option OErr
deriving DecidableEq

/-- The refresh loop of bot.py's refresh_all (lines 123-124): calls
set_refresh_token for each listed id until an exception escapes. -/
def refresh_all_loop (renv : String → HttpResp) : Store → List String → RefreshOut
  | st, [] => ⟨st, [], none⟩
  | st, uid :: rest =>
    match set_refresh_token (renv uid) st uid with
    | (st1, .error e) => ⟨st1, [uid], some e⟩
    | (st1, .ok _) =>
      let r := refresh_all_loop renv st1 rest
      ⟨r.store, uid :: r.refreshed, r.err⟩

/-- bot.py's refresh_all command (lines 116-128): runs join_all, then
refreshes every listed record, with a single try/except (UnkownUser,
InvalidGrant) wrapped around the WHOLE batch: such an exception anywhere
stops the remaining work but completes the command (.ok); any other
exception escapes (.error). -/
def refresh_all (jenv : String → CandidateEnv) (renv : String → HttpResp)
    (guild : List String) (st : Store) :
    Store × List String × Except OErr Unit :=
  let jr := join_all jenv guild st
  match jr.aborted with
  | some e =>
    if e = .unknownUser ∨ e = .invalidGrant then (jr.store, [], .ok ())
    else (jr.store, [], .error e)
  | none =>
    let ro := refresh_all_loop renv jr.store (jr.store.map (fun r => r.user_id))
    match ro.err with
    | some e =>
      if e = .unknownUser ∨ e = .invalidGrant then (ro.store, ro.refreshed, .ok ())
      else (ro.store, ro.refreshed, .error e)
    | none => (ro.store, ro.refreshed, .ok ())

/-! ### Store lemmas -/

theorem find_one_user_id (st : Store) (uid : String) (rec : UserRecord)
    (h : find_one st uid = some rec) : rec.user_id = uid := by
  induction st with
  | nil => simp [find_one] at h
  | cons r rest ih =>
    by_cases hr : r.user_id = uid
    · simp [find_one, hr] at h
      subst h
      exact hr
    · simp [find_one, hr] at h
      exact ih h

theorem find_one_isSome (st : Store) (v : String) :
    (find_one st v).isSome ↔ v ∈ st.map (fun r => r.user_id) := by
  induction st with
  | nil => simp [find_one]
  | cons r rest ih =>
    by_cases hr : r.user_id = v
    · simp [find_one, hr]
    · simp [find_one, hr, ih, Ne.symm hr]

theorem find_one_eq_none (st : Store) (v : String)
    (h : v ∉ st.map (fun r => r.user_id)) : find_one st v = none := by
  have := (find_one_isSome st v).not.mpr h
  simpa [Option.not_isSome_iff_eq_none] using this

theorem find_one_update_db (st : Store) (uid un atk rtk : String) :
    find_one (update_db st (uid, un) atk rtk) uid = some ⟨uid, un, atk, rtk⟩ := by
  induction st with
  | nil => simp [update_db, find_one]
  | cons r rest ih =>
    by_cases hr : r.user_id = uid
    · simp [update_db, hr, find_one]
    · simp [update_db, hr, find_one, ih]

theorem find_one_update_db_ne (st : Store) (uid un atk rtk v : String)
    (h : v ≠ uid) :
    find_one (update_db st (uid, un) atk rtk) v = find_one st v := by
  have huv : uid ≠ v := fun he => h he.symm
  induction st with
  | nil => simp [update_db, find_one, huv]
  | cons r rest ih =>
    by_cases hr : r.user_id = uid
    · simp [update_db, hr, find_one, huv]
    · by_cases hv : r.user_id = v
      · simp [update_db, hr, find_one, hv, h]
      · simp [update_db, hr, find_one, hv, ih]

theorem find_one_delete_one_ne (st : Store) (uid v : String) (h : v ≠ uid) :
    find_one (delete_one st uid) v = find_one st v := by
  have huv : uid ≠ v := fun he => h he.symm
  induction st with
  | nil => simp [delete_one]
  | cons r rest ih =>
    by_cases hr : r.user_id = uid
    · simp [delete_one, hr, find_one, huv]
    · by_cases hv : r.user_id = v
      · simp [delete_one, hr, find_one, hv, h]
      · simp [delete_one, hr, find_one, hv, ih]

theorem find_one_delete_one_self (st : Store) (uid : String)
    (hnd : (st.map (fun r => r.user_id)).Nodup) :
    find_one (delete_one st uid) uid = none := by
  induction st with
  | nil => simp [delete_one, find_one]
  | cons r rest ih =>
    simp only [List.map_cons, List.nodup_cons] at hnd
    by_cases hr : r.user_id = uid
    · simp only [delete_one, hr, if_pos rfl]
      exact find_one_eq_none rest uid (hr ▸ hnd.1)
    · simp [delete_one, hr, find_one, ih hnd.2]

theorem delete_one_sublist (st : Store) (uid : String) :
    List.Sublist (delete_one st uid) st := by
  induction st with
  | nil => simp [delete_one]
  | cons r rest ih =>
    by_cases hr : r.user_id = uid
    · simp only [delete_one, hr, if_pos rfl]
      exact List.sublist_cons_self r rest
    · simp only [delete_one, hr, if_neg hr]
      exact List.Sublist.cons₂ r ih

/-! ### Request-classification lemmas -/

theorem requestClassify_ok_not_put (m : Method) (resp : HttpResp)
    (hm : m ≠ .PUT) (h : resp.status ∉ [400, 401, 429]) :
    requestClassify m resp = .ok (resp.body, resp.status) := by
  simp only [List.mem_cons, List.mem_singleton, not_or, List.not_mem_nil,
    not_false_iff, and_true] at h
  obtain ⟨h400, h401, h429⟩ := h
  cases m with
  | PUT => exact absurd rfl hm
  | GET => simp [requestClassify, h400, h401, h429]
  | POST => simp [requestClassify, h400, h401, h429]

theorem requestClassify_put_ok (resp : HttpResp)
    (h : resp.status ∉ [400, 401, 429]) :
    requestClassify .PUT resp = .ok ([], resp.status) := by
  simp only [List.mem_cons, List.mem_singleton, not_or, List.not_mem_nil,
    not_false_iff, and_true] at h
  obtain ⟨h400, h401, h429⟩ := h
  simp [requestClassify, h400, h401, h429]

theorem requestClassify_invalid_grant (m : Method) (resp : HttpResp)
    (hm : m ≠ .PUT) (h400 : resp.status = 400)
    (herr : jget resp.body "error" = some "invalid_grant") :
    requestClassify m resp = .error .invalidGrant := by
  cases m with
  | PUT => exact absurd rfl hm
  | GET => simp [requestClassify, h400, herr]
  | POST => simp [requestClassify, h400, herr]

/-! ### set_refresh_token lemmas -/

theorem set_refresh_token_invalidGrant (resp : HttpResp) (st : Store)
    (uid : String) (rec : UserRecord) (hf : find_one st uid = some rec)
    (h400 : resp.status = 400)
    (herr : jget resp.body "error" = some "invalid_grant") :
    set_refresh_token resp st uid = (delete_one st uid, .ok none) := by
  simp [set_refresh_token, hf,
    requestClassify_invalid_grant .POST resp (by simp) h400 herr]

theorem set_refresh_token_success (resp : HttpResp) (st : Store)
    (uid : String) (rec : UserRecord) (atk rtk : String)
    (hf : find_one st uid = some rec) (hs : resp.status ∉ [400, 401, 429])
    (hat : jget resp.body "access_token" = some atk)
    (hrt : jget resp.body "refresh_token" = some rtk) :
    set_refresh_token resp st uid =
      (update_db st (uid, rec.username) atk rtk,
       .ok (some (uid, rec.username, atk))) := by
  have huid := find_one_user_id st uid rec hf
  simp [set_refresh_token, hf, requestClassify_ok_not_put .POST resp (by simp) hs,
    hat, hrt, huid]

/-! ### Claim theorems -/

/-- C3: for every stored user, a refresh whose token exchange reports
invalid_grant deletes the record (it is absent from the store afterwards) and
returns None rather than raising; on a successful exchange the refresh upserts
the new token pair and returns the identity triple. -/
theorem C3_refresh_grant_invalid (resp : HttpResp) (st : Store) (uid : String)
    (rec : UserRecord) (hf : find_one st uid = some rec)
    (hnd : (st.map (fun r => r.user_id)).Nodup) :
    ((resp.status = 400 ∧ jget resp.body "error" = some "invalid_grant") →
      set_refresh_token resp st uid = (delete_one st uid, .ok none) ∧
      find_one (delete_one st uid) uid = none) ∧
    (∀ atk rtk, resp.status ∉ [400, 401, 429] →
      jget resp.body "access_token" = some atk →
      jget resp.body "refresh_token" = some rtk →
      set_refresh_token resp st uid =
        (update_db st (uid, rec.username) atk rtk,
         .ok (some (uid, rec.username, atk))) ∧
      find_one (update_db st (uid, rec.username) atk rtk) uid =
        some ⟨uid, rec.username, atk, rtk⟩) := by
  constructor
  · rintro ⟨h400, herr⟩
    exact ⟨set_refresh_token_invalidGrant resp st uid rec hf h400 herr,
      find_one_delete_one_self st uid hnd⟩
  · intro atk rtk hs hat hrt
    exact ⟨set_refresh_token_success resp st uid rec atk rtk hf hs hat hrt,
      find_one_update_db st uid rec.username atk rtk⟩

/-- C3 witness: a concrete invalid_grant refresh deletes the record and
returns None. -/
theorem C3_witness :
    set_refresh_token ⟨400, [("error", "invalid_grant")]⟩
      [⟨"u", "n", "a0", "r0"⟩] "u" =
      (delete_one [⟨"u", "n", "a0", "r0"⟩] "u", .ok none) :=
  ((C3_refresh_grant_invalid ⟨400, [("error", "invalid_grant")]⟩
      [⟨"u", "n", "a0", "r0"⟩] "u" ⟨"u", "n", "a0", "r0"⟩
      (by decide) (by decide)).1 ⟨rfl, by decide⟩).1

/-- C10: a successful refresh only replaces the token pair: the record keeps
its key and its previously stored username (the upsert writes back the
identity read before the exchange), and no other record is touched. -/
theorem C10_refresh_frame (resp : HttpResp) (st : Store) (uid : String)
    (rec : UserRecord) (atk rtk : String)
    (hf : find_one st uid = some rec) (hs : resp.status ∉ [400, 401, 429])
    (hat : jget resp.body "access_token" = some atk)
    (hrt : jget resp.body "refresh_token" = some rtk) :
    (set_refresh_token resp st uid).2 = .ok (some (uid, rec.username, atk)) ∧
    find_one (set_refresh_token resp st uid).1 uid =
      some ⟨rec.user_id, rec.username, atk, rtk⟩ ∧
    (∀ v, v ≠ uid →
      find_one (set_refresh_token resp st uid).1 v = find_one st v) := by
  have huid := find_one_user_id st uid rec hf
  have hcall := set_refresh_token_success resp st uid rec atk rtk hf hs hat hrt
  rw [hcall]
  refine ⟨rfl, ?_, ?_⟩
  · rw [huid]
    exact find_one_update_db st uid rec.username atk rtk
  · intro v hv
    exact find_one_update_db_ne st uid rec.username atk rtk v hv

/-- C10 witness: a concrete successful refresh keeps key and username and
replaces only the tokens. -/
theorem C10_witness :
    find_one (set_refresh_token ⟨200, [("access_token", "a1"), ("refresh_token", "r1")]⟩
        [⟨"u", "n", "a0", "r0"⟩, ⟨"v", "m", "b0", "s0"⟩] "u").1 "u" =
      some ⟨"u", "n", "a1", "r1"⟩ :=
  (C10_refresh_frame ⟨200, [("access_token", "a1"), ("refresh_token", "r1")]⟩
      [⟨"u", "n", "a0", "r0"⟩, ⟨"v", "m", "b0", "s0"⟩] "u" ⟨"u", "n", "a0", "r0"⟩
      "a1" "r1" (by decide) (by decide) (by decide) (by decide)).2.1

/-- C8 counterexample: a PUT response with status 400 whose body carries error
code invalid_grant is NOT classified as GrantInvalid: a PUT body is never
decoded (oauth.py line 82), so the 400 branch raises a KeyError instead. -/
theorem C8_cex :
    requestClassify .PUT ⟨400, [("error", "invalid_grant")]⟩ = .error .keyError ∧
    (Except.error OErr.keyError : Except OErr (Body × Nat)) ≠
      .error .invalidGrant := by decide

/-- C8 (amended): for GET and POST responses the classification is exactly as
claimed: 401 raises Unauthorized, 429 raises RateLimited, 400 with body error
invalid_grant raises GrantInvalid, any other 400 raises an unclassified fatal
error (a bare Exception, or a KeyError when the error field is missing), and
every remaining status returns the decoded body with the status; a 400 PUT
response always raises the KeyError since its body is never decoded. -/
theorem C8_request_spec (m : Method) (resp : HttpResp) (hm : m ≠ .PUT) :
    (resp.status = 401 → requestClassify m resp = .error .unauthorized) ∧
    (resp.status = 429 → requestClassify m resp = .error .rateLimited) ∧
    (resp.status = 400 → jget resp.body "error" = some "invalid_grant" →
      requestClassify m resp = .error .invalidGrant) ∧
    (∀ e, resp.status = 400 → jget resp.body "error" = some e →
      e ≠ "invalid_grant" → requestClassify m resp = .error .fatal) ∧
    (resp.status = 400 → jget resp.body "error" = none →
      requestClassify m resp = .error .keyError) ∧
    (resp.status ∉ [400, 401, 429] →
      requestClassify m resp = .ok (resp.body, resp.status)) ∧
    (∀ b, requestClassify .PUT ⟨400, b⟩ = .error .keyError) := by
  refine ⟨?_, ?_, ?_, ?_, ?_, ?_, ?_⟩
  · intro h
    cases m
    · simp [requestClassify, h]
    · simp [requestClassify, h]
    · exact absurd rfl hm
  · intro h
    cases m
    · simp [requestClassify, h]
    · simp [requestClassify, h]
    · exact absurd rfl hm
  · intro h herr
    exact requestClassify_invalid_grant m resp hm h herr
  · intro e h herr hne
    cases m
    · simp [requestClassify, h, herr, hne]
    · simp [requestClassify, h, herr, hne]
    · exact absurd rfl hm
  · intro h herr
    cases m
    · simp [requestClassify, h, herr]
    · simp [requestClassify, h, herr]
    · exact absurd rfl hm
  · intro h
    exact requestClassify_ok_not_put m resp hm h
  · intro b
    simp [requestClassify, jget]

/-- C8 witness: a concrete 429 GET response raises RateLimited. -/
theorem C8_witness :
    requestClassify .GET ⟨429, []⟩ = .error .rateLimited :=
  (C8_request_spec .GET ⟨429, []⟩ (by decide)).2.1 rfl

/-- C7 counterexample: a 429 response to the membership PUT makes join raise
RateLimited (intercepted inside the request layer), not the unclassified
fatal error the claim assigns to every status other than 201/204/403/404. -/
theorem C7_cex :
    join ⟨429, []⟩ [⟨"u", "n", "tok", "r"⟩] "u" = .error .rateLimited ∧
    (Except.error OErr.rateLimited : Except OErr JoinOk) ≠ .error .fatal := by
  decide

/-- C7 (amended): join raises UnknownUser when no record is stored; otherwise
it issues the membership PUT carrying the stored access token and maps the
status: 201 to Joined, 204 to AlreadyMember, 403 to AccessTokenExpired, 404 to
UnknownUser; any other status raises an error, but not always the unclassified
fatal one: 401 raises Unauthorized, 429 raises RateLimited, 400 raises a
KeyError on the undecoded PUT body, and every remaining status the fatal
error. -/
theorem C7_join_spec (resp : HttpResp) (st : Store) (uid : String) :
    (find_one st uid = none → join resp st uid = .error .unknownUser) ∧
    (∀ rec, find_one st uid = some rec →
      joinSentToken st uid = some rec.access_token ∧
      (resp.status = 201 → join resp st uid = .ok .success) ∧
      (resp.status = 204 → join resp st uid = .ok .alreadyInGuild) ∧
      (resp.status = 403 → join resp st uid = .error .accessTokenExpired) ∧
      (resp.status = 404 → join resp st uid = .error .unknownUser) ∧
      (resp.status = 401 → join resp st uid = .error .unauthorized) ∧
      (resp.status = 429 → join resp st uid = .error .rateLimited) ∧
      (resp.status = 400 → join resp st uid = .error .keyError) ∧
      (resp.status ∉ [201, 204, 400, 401, 403, 404, 429] →
        join resp st uid = .error .fatal)) := by
  constructor
  · intro h
    simp [join, h]
  · intro rec hf
    refine ⟨by simp [joinSentToken, hf], ?_, ?_, ?_, ?_, ?_, ?_, ?_, ?_⟩
    · intro h; simp [join, hf, requestClassify, h]
    · intro h; simp [join, hf, requestClassify, h]
    · intro h; simp [join, hf, requestClassify, h]
    · intro h; simp [join, hf, requestClassify, h]
    · intro h; simp [join, hf, requestClassify, h]
    · intro h; simp [join, hf, requestClassify, h]
    · intro h; simp [join, hf, requestClassify, h, jget]
    · intro h
      simp only [List.mem_cons, List.not_mem_nil, or_false, not_or] at h
      obtain ⟨h201, h204, h400, h401, h403, h404, h429⟩ := h
      simp [join, hf, requestClassify, h201, h204, h400, h401, h403, h404, h429]

/-- C7 witness: a concrete 204 membership PUT response yields AlreadyMember
for a stored user. -/
theorem C7_witness :
    join ⟨204, []⟩ [⟨"w", "n", "tokW", "r"⟩] "w" = .ok .alreadyInGuild :=
  ((C7_join_spec ⟨204, []⟩ [⟨"w", "n", "tokW", "r"⟩] "w").2
    ⟨"w", "n", "tokW", "r"⟩ (by decide)).2.2.1 rfl

/-- C4 counterexample: an exchange whose scope covers identify and guilds.join
but whose profile lookup yields an empty username returns the identity triple
WITHOUT upserting any record: the store stays empty. -/
theorem C4_cex :
    set_access_token
      ⟨⟨200, [("scope", "identify guilds.join"), ("access_token", "tokA"),
              ("refresh_token", "refA")]⟩,
       ⟨200, [("id", "u9"), ("username", "")]⟩⟩ [] =
      ([], .ok ("u9", "", "tokA")) ∧
    find_one [] "u9" = none := by decide

/-- C4 (amended): when the returned scope set lacks identify or guilds.join,
set_access_token signals ScopeInsufficient and leaves the store unchanged;
when the scope set is a superset of the required scopes AND the resolved user
id and username are both non-empty, the record is upserted and the identity
triple returned; with an empty resolved id or username the triple is returned
without any upsert. -/
theorem C4_exchange_scope (env : ExchangeEnv) (st : Store) (scope : String)
    (hs : env.tokenResp.status ∉ [400, 401, 429])
    (hscope : jget env.tokenResp.body "scope" = some scope) :
    (("identify" ∉ pySplit ' ' scope ∨ "guilds.join" ∉ pySplit ' ' scope) →
      set_access_token env st = (st, .error .invalidScope)) ∧
    (∀ atk rtk uid un,
      "identify" ∈ pySplit ' ' scope → "guilds.join" ∈ pySplit ' ' scope →
      jget env.tokenResp.body "access_token" = some atk →
      jget env.tokenResp.body "refresh_token" = some rtk →
      env.profileResp.status ∉ [400, 401, 429] →
      jget env.profileResp.body "id" = some uid →
      jget env.profileResp.body "username" = some un →
      uid ≠ "" → un ≠ "" →
      set_access_token env st =
        (update_db st (uid, un) atk rtk, .ok (uid, un, atk)) ∧
      find_one (update_db st (uid, un) atk rtk) uid =
        some ⟨uid, un, atk, rtk⟩) ∧
    (∀ atk uid un,
      "identify" ∈ pySplit ' ' scope → "guilds.join" ∈ pySplit ' ' scope →
      jget env.tokenResp.body "access_token" = some atk →
      env.profileResp.status ∉ [400, 401, 429] →
      jget env.profileResp.body "id" = some uid →
      jget env.profileResp.body "username" = some un →
      (uid = "" ∨ un = "") →
      set_access_token env st = (st, .ok (uid, un, atk))) := by
  have hpost := requestClassify_ok_not_put .POST env.tokenResp (by simp) hs
  refine ⟨?_, ?_, ?_⟩
  · intro hmiss
    have : ¬ ("identify" ∈ pySplit ' ' scope ∧ "guilds.join" ∈ pySplit ' ' scope) := by
      rcases hmiss with h | h
      · exact fun hc => h hc.1
      · exact fun hc => h hc.2
    simp [set_access_token, hpost, hscope, this]
  · intro atk rtk uid un h1 h2 hat hrt hps hid hun hne1 hne2
    have hget := requestClassify_ok_not_put .GET env.profileResp (by simp) hps
    constructor
    · simp [set_access_token, hpost, hscope, h1, h2, hat, hrt, get_user, hget,
        hid, hun, hne1, hne2]
    · exact find_one_update_db st uid un atk rtk
  · intro atk uid un h1 h2 hat hps hid hun hempty
    have hget := requestClassify_ok_not_put .GET env.profileResp (by simp) hps
    have : ¬ (uid ≠ "" ∧ un ≠ "") := by
      rcases hempty with h | h
      · exact fun hc => hc.1 h
      · exact fun hc => hc.2 h
    simp [set_access_token, hpost, hscope, h1, h2, hat, get_user, hget,
      hid, hun, this]

/-- C4 witness: a concrete exchange with scope identify only leaves the store
unchanged and signals ScopeInsufficient. -/
theorem C4_witness :
    set_access_token ⟨⟨200, [("scope", "identify")]⟩, ⟨200, []⟩⟩
      [⟨"u", "n", "a0", "r0"⟩] =
      ([⟨"u", "n", "a0", "r0"⟩], .error .invalidScope) :=
  (C4_exchange_scope ⟨⟨200, [("scope", "identify")]⟩, ⟨200, []⟩⟩
      [⟨"u", "n", "a0", "r0"⟩] "identify" (by decide) (by decide)).1
    (Or.inr (by decide))

/-- C6 counterexample: a callback request whose code exchange fails with
ScopeInsufficient does NOT redirect: web.py's handler catches only UnkownUser,
so InvalidScope escapes the route instead of being swallowed. -/
theorem C6_cex :
    (callback ⟨⟨⟨200, [("scope", "identify")]⟩, ⟨200, []⟩⟩, ⟨200, []⟩, ⟨204, []⟩⟩
        [] (some "c")).2 = .error .invalidScope ∧
    (Except.error OErr.invalidScope : Except OErr String) ≠ .ok postAuthUrl := by
  decide

/-- C6 (amended): the callback endpoint redirects to the fixed post-auth
destination when no code is supplied, when validation succeeds, and when it
raises UnknownUser - the only swallowed error; every other failure of the
exchange or role grant escapes the handler instead of redirecting. -/
theorem C6_callback (env : ValidateEnv) (st st1 : Store) (code : Option String)
    (res : Except OErr Bool) (n : Nat)
    (hv : validate_user env st = (st1, res, n)) :
    (code = none → callback env st code = (st, .ok postAuthUrl)) ∧
    (∀ c, code = some c → (res = .error .unknownUser ∨ ∃ b, res = .ok b) →
      callback env st code = (st1, .ok postAuthUrl)) ∧
    (∀ c e, code = some c → e ≠ .unknownUser → res = .error e →
      callback env st code = (st1, .error e)) := by
  refine ⟨?_, ?_, ?_⟩
  · intro h
    simp [callback, h]
  · rintro c rfl hcase
    rcases hcase with rfl | ⟨b, rfl⟩
    · simp [callback, hv]
    · simp [callback, hv]
  · rintro c e rfl hne rfl
    cases e
    · simp [callback, hv]
    · simp [callback, hv]
    · simp [callback, hv]
    · simp [callback, hv]
    · exact absurd rfl hne
    · simp [callback, hv]
    · simp [callback, hv]
    · simp [callback, hv]

/-- C6 witness: with a fully successful validation the callback redirects to
the fixed destination. -/
theorem C6_witness :
    callback ⟨⟨⟨200, [("scope", "identify guilds.join"), ("access_token", "tokA"),
          ("refresh_token", "refA")]⟩, ⟨200, [("id", "u9"), ("username", "nm")]⟩⟩,
        ⟨200, []⟩, ⟨204, []⟩⟩ [] (some "c") =
      ([⟨"u9", "nm", "tokA", "refA"⟩], .ok postAuthUrl) :=
  (C6_callback ⟨⟨⟨200, [("scope", "identify guilds.join"), ("access_token", "tokA"),
          ("refresh_token", "refA")]⟩, ⟨200, [("id", "u9"), ("username", "nm")]⟩⟩,
        ⟨200, []⟩, ⟨204, []⟩⟩ [] [⟨"u9", "nm", "tokA", "refA"⟩] (some "c")
      (.ok true) 1 (by decide)).2.1 "c" rfl (Or.inr ⟨true, rfl⟩)

/-- C9 counterexample: after a successful exchange, a 429 member lookup makes
validate_user raise RateLimited (intercepted inside the request layer) instead
of falling under the claim's catch-all of returning false without granting. -/
theorem C9_cex :
    validate_user ⟨⟨⟨200, [("scope", "identify guilds.join"), ("access_token", "tokA"),
          ("refresh_token", "refA")]⟩, ⟨200, [("id", "u9"), ("username", "nm")]⟩⟩,
        ⟨429, []⟩, ⟨204, []⟩⟩ [] =
      ([⟨"u9", "nm", "tokA", "refA"⟩], .error .rateLimited, 0) ∧
    (Except.error OErr.rateLimited : Except OErr Bool) ≠ .ok false := by decide

/-- C9 (amended): validate_user first performs the code exchange; a 404
member lookup signals UnknownUser having issued no role-grant PUT; a 200
lookup issues exactly one role-grant PUT and returns true when that PUT is
not itself rejected by the request layer - a 401/429/400 role-grant response
instead raises Unauthorized/RateLimited/KeyError after the single PUT; a
401/429/400 member lookup likewise raises (Unauthorized, RateLimited, or for
a 400 body GrantInvalid/KeyError/the unclassified fatal error) rather than
returning false; every remaining lookup status returns false without
granting. -/
theorem C9_validate_spec (env : ValidateEnv) (st st1 : Store)
    (uid un tok : String)
    (hex : set_access_token env.exch st = (st1, .ok (uid, un, tok))) :
    (env.memberResp.status = 404 →
      validate_user env st = (st1, .error .unknownUser, 0)) ∧
    (env.memberResp.status = 200 → (validate_user env st).2.2 = 1) ∧
    (env.memberResp.status = 200 → env.rolePutResp.status ∉ [400, 401, 429] →
      validate_user env st = (st1, .ok true, 1)) ∧
    (env.memberResp.status = 200 → env.rolePutResp.status = 401 →
      validate_user env st = (st1, .error .unauthorized, 1)) ∧
    (env.memberResp.status = 200 → env.rolePutResp.status = 429 →
      validate_user env st = (st1, .error .rateLimited, 1)) ∧
    (env.memberResp.status = 200 → env.rolePutResp.status = 400 →
      validate_user env st = (st1, .error .keyError, 1)) ∧
    (env.memberResp.status = 401 →
      validate_user env st = (st1, .error .unauthorized, 0)) ∧
    (env.memberResp.status = 429 →
      validate_user env st = (st1, .error .rateLimited, 0)) ∧
    (env.memberResp.status = 400 →
      jget env.memberResp.body "error" = some "invalid_grant" →
      validate_user env st = (st1, .error .invalidGrant, 0)) ∧
    (env.memberResp.status = 400 → jget env.memberResp.body "error" = none →
      validate_user env st = (st1, .error .keyError, 0)) ∧
    (∀ e2, env.memberResp.status = 400 →
      jget env.memberResp.body "error" = some e2 → e2 ≠ "invalid_grant" →
      validate_user env st = (st1, .error .fatal, 0)) ∧
    (env.memberResp.status ∉ [200, 400, 401, 404, 429] →
      validate_user env st = (st1, .ok false, 0)) := by
  refine ⟨?_, ?_, ?_, ?_, ?_, ?_, ?_, ?_, ?_, ?_, ?_, ?_⟩
  · intro h404
    have hg := requestClassify_ok_not_put .GET env.memberResp (by simp)
      (by simp [h404])
    simp [validate_user, hex, hg, h404]
  · intro h200
    have hg := requestClassify_ok_not_put .GET env.memberResp (by simp)
      (by simp [h200])
    rcases hput : requestClassify .PUT env.rolePutResp with e | ok
    · simp [validate_user, hex, hg, h200, hput]
    · simp [validate_user, hex, hg, h200, hput]
  · intro h200 hrole
    have hg := requestClassify_ok_not_put .GET env.memberResp (by simp)
      (by simp [h200])
    simp [validate_user, hex, hg, h200,
      requestClassify_put_ok env.rolePutResp hrole]
  · intro h200 hput
    have hg := requestClassify_ok_not_put .GET env.memberResp (by simp)
      (by simp [h200])
    simp [validate_user, hex, hg, h200, requestClassify, hput]
  · intro h200 hput
    have hg := requestClassify_ok_not_put .GET env.memberResp (by simp)
      (by simp [h200])
    simp [validate_user, hex, hg, h200, requestClassify, hput]
  · intro h200 hput
    have hg := requestClassify_ok_not_put .GET env.memberResp (by simp)
      (by simp [h200])
    simp [validate_user, hex, hg, h200, requestClassify, hput, jget]
  · intro h401
    simp [validate_user, hex, requestClassify, h401]
  · intro h429
    simp [validate_user, hex, requestClassify, h429]
  · intro h400 herr
    simp [validate_user, hex, requestClassify, h400, herr]
  · intro h400 herr
    simp [validate_user, hex, requestClassify, h400, herr]
  · intro e2 h400 herr hne
    simp [validate_user, hex, requestClassify, h400, herr, hne]
  · intro hother
    simp only [List.mem_cons, List.not_mem_nil, or_false, not_or] at hother
    obtain ⟨h200, h400, h401, h404, h429⟩ := hother
    have hg := requestClassify_ok_not_put .GET env.memberResp (by simp)
      (by simp [h400, h401, h429])
    simp [validate_user, hex, hg, h200, h404]

/-- C9 witness: a concrete 404 member lookup signals UnknownUser with no
role-grant PUT issued, after a successful exchange. -/
theorem C9_witness :
    validate_user ⟨⟨⟨200, [("scope", "identify guilds.join"), ("access_token", "tokA"),
          ("refresh_token", "refA")]⟩, ⟨200, [("id", "u9"), ("username", "nm")]⟩⟩,
        ⟨404, []⟩, ⟨204, []⟩⟩ [] =
      ([⟨"u9", "nm", "tokA", "refA"⟩], .error .unknownUser, 0) :=
  (C9_validate_spec ⟨⟨⟨200, [("scope", "identify guilds.join"), ("access_token", "tokA"),
          ("refresh_token", "refA")]⟩, ⟨200, [("id", "u9"), ("username", "nm")]⟩⟩,
        ⟨404, []⟩, ⟨204, []⟩⟩ [] [⟨"u9", "nm", "tokA", "refA"⟩]
      "u9" "nm" "tokA" (by decide)).1 rfl

/-- C1: evaluation of join_all at the failing input.  The stored user u1's
first join gets 403 (AccessTokenExpired); the refresh succeeds and returns the
triple (u1, alice, newTok); bot.py line 105 then passes refresh_resp[-1] -
the refreshed ACCESS TOKEN newTok, not the user id u1 - to the retried join,
which raises UnkownUser because no record is keyed newTok; that exception is
not caught (line 106 catches only AccessTokenExpired), so the run aborts,
u1's record is never deleted, and u1 is absent from the progress set.  The
joinArgs trace [u1, newTok] exhibits the wrong retry identity. -/
theorem C1_join_all_trace :
    join_all (fun _ => ⟨⟨403, []⟩,
        ⟨200, [("access_token", "newTok"), ("refresh_token", "newRef")]⟩,
        ⟨201, []⟩⟩)
      [] [⟨"u1", "alice", "oldTok", "refTok"⟩] =
    ⟨[⟨"u1", "alice", "newTok", "newRef"⟩], [], ["u1"], ["u1", "newTok"],
      some .unknownUser⟩ := by decide

/-- Attempted candidates of the join_all loop: always an initial segment of
the processed list, and the whole list when no exception escapes. -/
theorem join_all_loop_attempted (env : String → CandidateEnv) :
    ∀ (l : List String) (st : Store),
      (∃ k, (join_all_loop env st l).attempted = l.take k) ∧
      ((join_all_loop env st l).aborted = none →
        (join_all_loop env st l).attempted = l) := by
  intro l
  induction l with
  | nil => exact fun st => ⟨⟨0, rfl⟩, fun _ => rfl⟩
  | cons m rest ih =>
    intro st
    cases hs : (join_all_step (env m) st m).err with
    | some e =>
      constructor
      · exact ⟨1, by simp [join_all_loop, hs]⟩
      · intro hab
        simp [join_all_loop, hs] at hab
    | none =>
      obtain ⟨⟨k, hk⟩, hcomp⟩ := ih (join_all_step (env m) st m).store
      constructor
      · exact ⟨k + 1, by simp [join_all_loop, hs, hk]⟩
      · intro hab
        simp only [join_all_loop, hs] at hab ⊢
        simp [hcomp hab]

/-- C2 counterexample: with stored users a and b, none in the guild, a 429 on
a's first join escapes the loop, so b - a member of toJoin - is never
attempted: the attempted set is a strict subset of toJoin. -/
theorem C2_cex :
    toJoinOf [⟨"a", "n1", "t1", "r1"⟩, ⟨"b", "n2", "t2", "r2"⟩] [] = ["a", "b"] ∧
    (join_all (fun _ => ⟨⟨429, []⟩, ⟨200, []⟩, ⟨200, []⟩⟩) []
        [⟨"a", "n1", "t1", "r1"⟩, ⟨"b", "n2", "t2", "r2"⟩]).attempted = ["a"] ∧
    (["a"] : List String) ≠ ["a", "b"] := by decide

/-- C2 (amended): reconciliation computes toJoin as the stored ids minus the
guild roster (in store order); joins are only ever attempted for members of
toJoin - the attempted candidates form an initial segment of toJoin - and
when no unhandled error aborts the run, exactly the members of toJoin are
attempted. -/
theorem C2_join_all_attempts (env : String → CandidateEnv)
    (guild : List String) (st : Store) :
    (∀ m, m ∈ toJoinOf st guild ↔
      m ∈ st.map (fun r => r.user_id) ∧ m ∉ guild) ∧
    (∃ k, (join_all env guild st).attempted = (toJoinOf st guild).take k) ∧
    ((join_all env guild st).aborted = none →
      (join_all env guild st).attempted = toJoinOf st guild) := by
  refine ⟨?_, (join_all_loop_attempted env (toJoinOf st guild) st).1,
    (join_all_loop_attempted env (toJoinOf st guild) st).2⟩
  intro m
  simp [toJoinOf, List.mem_filter]

/-- C2 witness: a concrete unaborted run attempts exactly toJoin. -/
theorem C2_witness :
    (join_all (fun _ => ⟨⟨201, []⟩, ⟨200, []⟩, ⟨200, []⟩⟩) []
        [⟨"a", "n", "t", "r"⟩]).attempted =
      toJoinOf [⟨"a", "n", "t", "r"⟩] [] :=
  (C2_join_all_attempts (fun _ => ⟨⟨201, []⟩, ⟨200, []⟩, ⟨200, []⟩⟩) []
      [⟨"a", "n", "t", "r"⟩]).2.2 (by decide)

/-- The per-member outcomes the join_all loop body handles without an
escaping exception, stated over the embedded operations: the first join
succeeds; or it raises one of the caught errors (UnkownUser, InvalidGrant,
AccessTokenExpired) and the refresh either returns None (record purged,
candidate skipped) or returns a triple t, after which the single retried
join - called with t.2.2, the refreshed access token (the C1 bug) - either
succeeds or raises AccessTokenExpired (the record keyed by that token is
deleted and the candidate skipped). -/
def stepHandled (e : CandidateEnv) (st : Store) (m : String) : Prop :=
  (∃ r, join e.firstJoin st m = Except.ok r) ∨
  (∃ er, join e.firstJoin st m = Except.error er ∧
    (er = OErr.unknownUser ∨ er = OErr.invalidGrant ∨
      er = OErr.accessTokenExpired) ∧
    ((∃ st1, set_refresh_token e.refresh st m = (st1, Except.ok none)) ∨
     (∃ st1 t, set_refresh_token e.refresh st m = (st1, Except.ok (some t)) ∧
       ((∃ r2, join e.retryJoin st1 t.2.2 = Except.ok r2) ∨
        join e.retryJoin st1 t.2.2 = Except.error OErr.accessTokenExpired))))

/-- True when every iteration of the join_all loop over the given candidates,
run from the given store, ends without an escaping exception. -/
def handledRun (jenv : String → CandidateEnv) : Store → List String → Bool
  | _, [] => true
  | st, m :: rest =>
    match (join_all_step (jenv m) st m).err with
    | some _ => false
    | none => handledRun jenv (join_all_step (jenv m) st m).store rest

/-- Refresh-exchange outcomes that refresh_all handles per record: either an
invalid_grant report (record purged inside set_refresh_token) or a successful
exchange carrying both tokens. -/
def benignRefresh (resp : HttpResp) : Prop :=
  (resp.status = 400 ∧ jget resp.body "error" = some "invalid_grant") ∨
  (resp.status ∉ [400, 401, 429] ∧
    (jget resp.body "access_token").isSome ∧
    (jget resp.body "refresh_token").isSome)

instance (resp : HttpResp) : Decidable (benignRefresh resp) := by
  unfold benignRefresh
  infer_instance

/-- Inversion: set_refresh_token answers None only from its InvalidGrant
handler, whose store is delete_one of the requested id. -/
theorem set_refresh_token_ok_none (resp : HttpResp) (st st1 : Store)
    (uid : String)
    (h : set_refresh_token resp st uid = (st1, .ok none)) :
    st1 = delete_one st uid := by
  unfold set_refresh_token at h
  rcases hf : find_one st uid with _ | rec
  · rw [hf] at h
    simp at h
  · rcases hcl : requestClassify .POST resp with e2 | pr
    · rw [hf, hcl] at h
      cases e2 <;> simp at h
      exact h.symm
    · rcases pr with ⟨body, status⟩
      rw [hf, hcl] at h
      rcases hat : jget body "access_token" with _ | atk
      · simp [hat] at h
      · rcases hrt : jget body "refresh_token" with _ | rtk
        · simp [hat, hrt] at h
        · simp [hat, hrt] at h

/-- Inversion: a successful refresh found the record and its store is the
upsert of the old identity with the new token pair; the returned triple's
last component is the new access token written into the record. -/
theorem set_refresh_token_ok_some (resp : HttpResp) (st st1 : Store)
    (uid : String) (t : String × String × String)
    (h : set_refresh_token resp st uid = (st1, .ok (some t))) :
    ∃ rec rtk, find_one st uid = some rec ∧
      st1 = update_db st (uid, rec.username) t.2.2 rtk := by
  unfold set_refresh_token at h
  rcases hf : find_one st uid with _ | rec
  · rw [hf] at h
    simp at h
  · rcases hcl : requestClassify .POST resp with e2 | pr
    · rw [hf, hcl] at h
      cases e2 <;> simp at h
    · rcases pr with ⟨body, status⟩
      rw [hf, hcl] at h
      rcases hat : jget body "access_token" with _ | atk
      · simp [hat] at h
      · rcases hrt : jget body "refresh_token" with _ | rtk
        · simp [hat, hrt] at h
        · simp only [hat, hrt, Prod.mk.injEq, Except.ok.injEq,
            Option.some.injEq] at h
          obtain ⟨h1, h2⟩ := h
          have huid := find_one_user_id st uid rec hf
          subst h2
          refine ⟨rec, rtk, rfl, ?_⟩
          rw [← h1, huid]

/-- Upserting an id that is already stored leaves the key sequence of the
store unchanged. -/
theorem update_db_ids (st : Store) (uid un atk rtk : String)
    (rec : UserRecord) (hf : find_one st uid = some rec) :
    (update_db st (uid, un) atk rtk).map (fun r => r.user_id) =
      st.map (fun r => r.user_id) := by
  induction st with
  | nil => simp [find_one] at hf
  | cons r rest ih =>
    by_cases hr : r.user_id = uid
    · simp [update_db, hr]
    · simp only [find_one, if_neg hr] at hf
      simp [update_db, hr, ih hf]

/-- Step equation: a successful first join completes the candidate with the
store untouched. -/
theorem join_all_step_eq_ok (e : CandidateEnv) (st : Store) (m : String)
    (r : JoinOk) (hj : join e.firstJoin st m = .ok r) :
    join_all_step e st m = ⟨st, none, true, [m]⟩ := by
  simp [join_all_step, hj]

/-- Step equation: a first-join error outside the caught tuple escapes. -/
theorem join_all_step_eq_uncaught (e : CandidateEnv) (st : Store) (m : String)
    (er : OErr) (hj : join e.firstJoin st m = .error er)
    (hc : ¬(er = OErr.unknownUser ∨ er = OErr.invalidGrant ∨
      er = OErr.accessTokenExpired)) :
    join_all_step e st m = ⟨st, some er, false, [m]⟩ := by
  simp [join_all_step, hj, hc]

/-- Step equation: an error raised by the refresh escapes. -/
theorem join_all_step_eq_refresh_err (e : CandidateEnv) (st : Store)
    (m : String) (er : OErr) (st1 : Store) (e2 : OErr)
    (hj : join e.firstJoin st m = .error er)
    (hc : er = OErr.unknownUser ∨ er = OErr.invalidGrant ∨
      er = OErr.accessTokenExpired)
    (hsr : set_refresh_token e.refresh st m = (st1, .error e2)) :
    join_all_step e st m = ⟨st1, some e2, false, [m]⟩ := by
  simp [join_all_step, hj, hc, hsr]

/-- Step equation: a refresh returning None skips the candidate. -/
theorem join_all_step_eq_refresh_none (e : CandidateEnv) (st : Store)
    (m : String) (er : OErr) (st1 : Store)
    (hj : join e.firstJoin st m = .error er)
    (hc : er = OErr.unknownUser ∨ er = OErr.invalidGrant ∨
      er = OErr.accessTokenExpired)
    (hsr : set_refresh_token e.refresh st m = (st1, .ok none)) :
    join_all_step e st m = ⟨st1, none, false, [m]⟩ := by
  simp [join_all_step, hj, hc, hsr]

/-- Step equation: a successful retried join (called with t.2.2, the
refreshed access token) completes the candidate. -/
theorem join_all_step_eq_retry_ok (e : CandidateEnv) (st : Store) (m : String)
    (er : OErr) (st1 : Store) (t : String × String × String) (r2 : JoinOk)
    (hj : join e.firstJoin st m = .error er)
    (hc : er = OErr.unknownUser ∨ er = OErr.invalidGrant ∨
      er = OErr.accessTokenExpired)
    (hsr : set_refresh_token e.refresh st m = (st1, .ok (some t)))
    (hrj : join e.retryJoin st1 t.2.2 = .ok r2) :
    join_all_step e st m = ⟨st1, none, true, [m, t.2.2]⟩ := by
  simp [join_all_step, hj, hc, hsr, hrj]

/-- Step equation: AccessTokenExpired on the retried join deletes the record
keyed by the refreshed token and skips the candidate. -/
theorem join_all_step_eq_retry_expired (e : CandidateEnv) (st : Store)
    (m : String) (er : OErr) (st1 : Store) (t : String × String × String)
    (hj : join e.firstJoin st m = .error er)
    (hc : er = OErr.unknownUser ∨ er = OErr.invalidGrant ∨
      er = OErr.accessTokenExpired)
    (hsr : set_refresh_token e.refresh st m = (st1, .ok (some t)))
    (hrj : join e.retryJoin st1 t.2.2 = .error .accessTokenExpired) :
    join_all_step e st m = ⟨delete_one st1 t.2.2, none, false, [m, t.2.2]⟩ := by
  simp [join_all_step, hj, hc, hsr, hrj]

/-- Step equation: any other error on the retried join escapes. -/
theorem join_all_step_eq_retry_uncaught (e : CandidateEnv) (st : Store)
    (m : String) (er : OErr) (st1 : Store) (t : String × String × String)
    (er3 : OErr) (hj : join e.firstJoin st m = .error er)
    (hc : er = OErr.unknownUser ∨ er = OErr.invalidGrant ∨
      er = OErr.accessTokenExpired)
    (hsr : set_refresh_token e.refresh st m = (st1, .ok (some t)))
    (hrj : join e.retryJoin st1 t.2.2 = .error er3)
    (he3 : er3 ≠ OErr.accessTokenExpired) :
    join_all_step e st m = ⟨st1, some er3, false, [m, t.2.2]⟩ := by
  cases er3
  case accessTokenExpired => exact absurd rfl he3
  all_goals simp [join_all_step, hj, hc, hsr, hrj]

/-- The loop body ends without an escaping exception exactly on the handled
per-member outcomes. -/
theorem join_all_step_err_iff (e : CandidateEnv) (st : Store) (m : String) :
    (join_all_step e st m).err = none ↔ stepHandled e st m := by
  constructor
  · intro h
    rcases hj : join e.firstJoin st m with er | r
    · by_cases hc : er = OErr.unknownUser ∨ er = OErr.invalidGrant ∨
        er = OErr.accessTokenExpired
      · rcases hsr : set_refresh_token e.refresh st m with ⟨st1, res⟩
        rcases res with e2 | o
        · rw [join_all_step_eq_refresh_err e st m er st1 e2 hj hc hsr] at h
          simp at h
        · rcases o with _ | t
          · exact Or.inr ⟨er, hj, hc, Or.inl ⟨st1, hsr⟩⟩
          · rcases hrj : join e.retryJoin st1 t.2.2 with er3 | r2
            · by_cases he3 : er3 = OErr.accessTokenExpired
              · subst he3
                exact Or.inr ⟨er, hj, hc, Or.inr ⟨st1, t, hsr, Or.inr hrj⟩⟩
              · rw [join_all_step_eq_retry_uncaught e st m er st1 t er3
                  hj hc hsr hrj he3] at h
                simp at h
            · exact Or.inr ⟨er, hj, hc, Or.inr ⟨st1, t, hsr, Or.inl ⟨r2, hrj⟩⟩⟩
      · rw [join_all_step_eq_uncaught e st m er hj hc] at h
        simp at h
    · exact Or.inl ⟨r, hj⟩
  · intro h
    rcases h with ⟨r, hj⟩ | ⟨er, hj, hc, hrest⟩
    · rw [join_all_step_eq_ok e st m r hj]
    · rcases hrest with ⟨st1, hsr⟩ | ⟨st1, t, hsr, hretry⟩
      · rw [join_all_step_eq_refresh_none e st m er st1 hj hc hsr]
      · rcases hretry with ⟨r2, hrj⟩ | hrj
        · rw [join_all_step_eq_retry_ok e st m er st1 t r2 hj hc hsr hrj]
        · rw [join_all_step_eq_retry_expired e st m er st1 t hj hc hsr hrj]

/-- A non-escaping loop iteration never introduces store keys: it leaves the
key sequence unchanged or deletes records. -/
theorem join_all_step_store_ids (e : CandidateEnv) (st : Store) (m : String)
    (h : (join_all_step e st m).err = none) :
    List.Sublist ((join_all_step e st m).store.map (fun r => r.user_id))
      (st.map (fun r => r.user_id)) := by
  rcases hj : join e.firstJoin st m with er | r
  · by_cases hc : er = OErr.unknownUser ∨ er = OErr.invalidGrant ∨
      er = OErr.accessTokenExpired
    · rcases hsr : set_refresh_token e.refresh st m with ⟨st1, res⟩
      rcases res with e2 | o
      · rw [join_all_step_eq_refresh_err e st m er st1 e2 hj hc hsr] at h
        simp at h
      · rcases o with _ | t
        · rw [join_all_step_eq_refresh_none e st m er st1 hj hc hsr]
          rw [set_refresh_token_ok_none e.refresh st st1 m hsr]
          exact (delete_one_sublist st m).map _
        · obtain ⟨rec, rtk, hfm, hst1⟩ :=
            set_refresh_token_ok_some e.refresh st st1 m t hsr
          have hids : st1.map (fun r => r.user_id) =
              st.map (fun r => r.user_id) := by
            rw [hst1]
            exact update_db_ids st m rec.username t.2.2 rtk rec hfm
          rcases hrj : join e.retryJoin st1 t.2.2 with er3 | r2
          · by_cases he3 : er3 = OErr.accessTokenExpired
            · subst he3
              rw [join_all_step_eq_retry_expired e st m er st1 t hj hc hsr hrj]
              have h1 := (delete_one_sublist st1 t.2.2).map
                (fun r => r.user_id)
              rw [hids] at h1
              exact h1
            · rw [join_all_step_eq_retry_uncaught e st m er st1 t er3
                hj hc hsr hrj he3] at h
              simp at h
          · rw [join_all_step_eq_retry_ok e st m er st1 t r2 hj hc hsr hrj]
            rw [hids]
    · rw [join_all_step_eq_uncaught e st m er hj hc] at h
      simp at h
  · rw [join_all_step_eq_ok e st m r hj]

/-- When every iteration of the join_all loop is handled, the run does not
abort, every candidate is attempted, and the key set only shrinks. -/
theorem join_all_loop_handled (jenv : String → CandidateEnv) :
    ∀ (l : List String) (st : Store), handledRun jenv st l = true →
      (join_all_loop jenv st l).aborted = none ∧
      (join_all_loop jenv st l).attempted = l ∧
      List.Sublist ((join_all_loop jenv st l).store.map (fun r => r.user_id))
        (st.map (fun r => r.user_id)) := by
  intro l
  induction l with
  | nil => exact fun st _ => ⟨rfl, rfl, List.Sublist.refl _⟩
  | cons m rest ih =>
    intro st hrun
    unfold handledRun at hrun
    cases hs : (join_all_step (jenv m) st m).err with
    | some e =>
      rw [hs] at hrun
      simp at hrun
    | none =>
      rw [hs] at hrun
      obtain ⟨ha, hat2, hsub⟩ := ih (join_all_step (jenv m) st m).store hrun
      have hids := join_all_step_store_ids (jenv m) st m hs
      refine ⟨?_, ?_, ?_⟩
      · simp [join_all_loop, hs, ha]
      · simp [join_all_loop, hs, hat2]
      · simp only [join_all_loop, hs]
        exact hsub.trans hids

/-- With benign refresh outcomes the refresh loop reaches every listed record:
no exception escapes and refresh is invoked for each id in order. -/
theorem refresh_all_loop_benign (renv : String → HttpResp) :
    ∀ (ids : List String) (st : Store), ids.Nodup →
      (∀ v ∈ ids, benignRefresh (renv v)) →
      (∀ v ∈ ids, (find_one st v).isSome) →
      (refresh_all_loop renv st ids).err = none ∧
      (refresh_all_loop renv st ids).refreshed = ids := by
  intro ids
  induction ids with
  | nil => exact fun st _ _ _ => ⟨rfl, rfl⟩
  | cons u rest ih =>
    intro st hnd hb hp
    simp only [List.nodup_cons] at hnd
    obtain ⟨rec, hrec⟩ :=
      Option.isSome_iff_exists.mp (hp u (List.mem_cons_self u rest))
    rcases hb u (List.mem_cons_self u rest) with ⟨h400, herr⟩ | ⟨hs, hat, hrt⟩
    · have hcall := set_refresh_token_invalidGrant (renv u) st u rec hrec h400 herr
      have hp2 : ∀ v ∈ rest, (find_one (delete_one st u) v).isSome := by
        intro v hv
        have hvm : v ≠ u := fun he => hnd.1 (he ▸ hv)
        rw [find_one_delete_one_ne st u v hvm]
        exact hp v (List.mem_cons_of_mem u hv)
      obtain ⟨he, hrr⟩ := ih (delete_one st u) hnd.2
        (fun v hv => hb v (List.mem_cons_of_mem u hv)) hp2
      constructor
      · simp [refresh_all_loop, hcall, he]
      · simp [refresh_all_loop, hcall, hrr]
    · obtain ⟨atk, hatk⟩ := Option.isSome_iff_exists.mp hat
      obtain ⟨rtk, hrtk⟩ := Option.isSome_iff_exists.mp hrt
      have hcall := set_refresh_token_success (renv u) st u rec atk rtk hrec hs hatk hrtk
      have hp2 : ∀ v ∈ rest,
          (find_one (update_db st (u, rec.username) atk rtk) v).isSome := by
        intro v hv
        have hvm : v ≠ u := fun he => hnd.1 (he ▸ hv)
        rw [find_one_update_db_ne st u rec.username atk rtk v hvm]
        exact hp v (List.mem_cons_of_mem u hv)
      obtain ⟨he, hrr⟩ := ih (update_db st (u, rec.username) atk rtk) hnd.2
        (fun v hv => hb v (List.mem_cons_of_mem u hv)) hp2
      constructor
      · simp [refresh_all_loop, hcall, he]
      · simp [refresh_all_loop, hcall, hrr]

/-- C5 counterexample: an error raised while handling ONE member terminates
the whole run: with stored users a and b (none in the guild), a's first join
gets 403 and the refresh exchange is rate limited; RateLimited is not in the
caught exception tuple, so the run aborts and b is never attempted. -/
theorem C5_cex :
    (join_all (fun _ => ⟨⟨403, []⟩, ⟨429, []⟩, ⟨200, []⟩⟩) []
        [⟨"a", "n1", "t1", "r1"⟩, ⟨"b", "n2", "t2", "r2"⟩]).aborted =
      some .rateLimited ∧
    (join_all (fun _ => ⟨⟨403, []⟩, ⟨429, []⟩, ⟨200, []⟩⟩) []
        [⟨"a", "n1", "t1", "r1"⟩, ⟨"b", "n2", "t2", "r2"⟩]).attempted = ["a"] ∧
    toJoinOf [⟨"a", "n1", "t1", "r1"⟩, ⟨"b", "n2", "t2", "r2"⟩] [] =
      ["a", "b"] := by decide

/-- C5 (amended): the loop body converts EXACTLY the handled per-member
outcomes into skip/continue decisions - first-join success; a caught
first-join failure (UnknownUser/GrantInvalid/AccessTokenExpired) whose
refresh purges the record or succeeds, followed by a single retried join that
succeeds or raises AccessTokenExpired - and a run all of whose iterations are
handled processes every candidate to completion; any other raised outcome
escapes its iteration and aborts the run (see the counterexample).  Likewise
refresh_all's loop tolerates per-record invalid_grant (handled inside
refresh) and invokes refresh for every stored record. -/
theorem C5_run_tolerates (jenv : String → CandidateEnv)
    (renv : String → HttpResp) (guild : List String) (st : Store)
    (hnd : (st.map (fun r => r.user_id)).Nodup)
    (hrun : handledRun jenv st (toJoinOf st guild) = true)
    (hr : ∀ v, benignRefresh (renv v)) :
    (∀ (e : CandidateEnv) (st' : Store) (m : String),
      (join_all_step e st' m).err = none ↔ stepHandled e st' m) ∧
    (join_all jenv guild st).aborted = none ∧
    (join_all jenv guild st).attempted = toJoinOf st guild ∧
    (refresh_all jenv renv guild st).2.2 = .ok () ∧
    (refresh_all jenv renv guild st).2.1 =
      (join_all jenv guild st).store.map (fun r => r.user_id) := by
  have hJ : join_all jenv guild st = join_all_loop jenv st (toJoinOf st guild) := rfl
  obtain ⟨ha, hat2, hsub⟩ :=
    join_all_loop_handled jenv (toJoinOf st guild) st hrun
  rw [← hJ] at ha hat2 hsub
  have hndS : ((join_all jenv guild st).store.map (fun r => r.user_id)).Nodup :=
    List.Nodup.sublist hsub hnd
  have hpS : ∀ v ∈ (join_all jenv guild st).store.map (fun r => r.user_id),
      (find_one (join_all jenv guild st).store v).isSome := by
    intro v hv
    rw [find_one_isSome]
    exact hv
  obtain ⟨he, hrefr⟩ := refresh_all_loop_benign renv
    ((join_all jenv guild st).store.map (fun r => r.user_id))
    (join_all jenv guild st).store hndS (fun v _ => hr v) hpS
  refine ⟨join_all_step_err_iff, ha, hat2, ?_, ?_⟩
  · simp [refresh_all, ha, he]
  · simp [refresh_all, ha, he, hrefr]

/-- Store for the C5 witness run: three users, none in the guild. -/
def C5wStore : Store :=
  [⟨"x", "n", "tx", "rx"⟩, ⟨"y", "p", "ty", "ry"⟩, ⟨"z", "q", "tz", "rz"⟩]

/-- Candidate outcomes for the C5 witness run: x takes the refresh-and-retry
path (the refreshed token coincides with a stored key, so the retried join
finds a record and succeeds), y succeeds outright, z takes the refresh-purge
path. -/
def C5wJenv : String → CandidateEnv := fun m =>
  if m = "x" then
    ⟨⟨403, []⟩, ⟨200, [("access_token", "x"), ("refresh_token", "r2")]⟩,
     ⟨201, []⟩⟩
  else if m = "y" then ⟨⟨204, []⟩, ⟨200, []⟩, ⟨200, []⟩⟩
  else ⟨⟨404, []⟩, ⟨400, [("error", "invalid_grant")]⟩, ⟨200, []⟩⟩

/-- Refresh outcomes for the C5 witness run: every record refreshes. -/
def C5wRenv : String → HttpResp := fun _ =>
  ⟨200, [("access_token", "A"), ("refresh_token", "B")]⟩

/-- C5 witness: a concrete run exercising all three handled outcome kinds
(success, refresh-purge, refresh-and-retry) completes, attempts every
candidate, and refreshes every remaining record. -/
theorem C5_witness :
    (join_all C5wJenv [] C5wStore).aborted = none ∧
    (join_all C5wJenv [] C5wStore).attempted = toJoinOf C5wStore [] ∧
    (refresh_all C5wJenv C5wRenv [] C5wStore).2.2 = .ok () ∧
    (refresh_all C5wJenv C5wRenv [] C5wStore).2.1 =
      (join_all C5wJenv [] C5wStore).store.map (fun r => r.user_id) :=
  (C5_run_tolerates C5wJenv C5wRenv [] C5wStore (by decide) (by decide)
    (fun _ =>
      (by decide :
        benignRefresh ⟨200, [("access_token", "A"), ("refresh_token", "B")]⟩))).2

end DOauth
